import Mathlib

/-!
Verification of the interceptaar gateway against its specification.

Part 1 embeds the ledger engine, `contracts/src/CommunityInteractionRating.sol`.
Solidity `uint256` values are modelled as `Nat`: Solidity 0.8 reverts on
overflow/underflow rather than wrapping, and every subtraction below is guarded
by the source's own `require` (or by the branch it sits in), so `Nat`
truncated subtraction never diverges from the source on reachable values.
Addresses are modelled as `Nat`, with `address(this)` as `contractAddr`.
`block.timestamp` bookkeeping (`lastUpdateTime`) and event emission carry no
state the claims mention and are omitted.  Reverting calls are modelled as
`Option`-valued operations returning `none`; a reverted call leaves the state
unchanged.
-/

namespace Ledger

/-- Mirror of the Solidity struct `UserProfile`. -/
structure UserProfile where
  username : String
  likes : Nat
  comments : Nat
  posts : Nat
  helpfulResponses : Nat
  reportsReceived : Nat
  reportsMade : Nat
  trustScore : Nat
  isActive : Bool
  rewardBalance : Nat
  totalEarned : Nat
  validationCount : Nat
  successfulValidations : Nat
  qtoBalance : Nat
  totalQtoEarned : Nat
  qoneqtInteractions : Nat
  avgSignificanceScore : Nat
deriving DecidableEq

/-- Solidity mapping default: the all-zero, inactive profile. -/
def defaultProfile : UserProfile :=
  ⟨"", 0, 0, 0, 0, 0, 0, 0, false, 0, 0, 0, 0, 0, 0, 0, 0⟩

/-- Mirror of the Solidity struct `RewardTier`. -/
structure RewardTier where
  minTrustScore : Nat
  baseReward : Nat
  validationReward : Nat
  qtoMultiplier : Nat
  tierName : String
deriving DecidableEq

/-- The four tiers pushed in the constructor, in order. -/
def rewardTiers : List RewardTier :=
  [⟨0, 1, 2, 800, "Bronze"⟩,
   ⟨100, 3, 5, 1000, "Silver"⟩,
   ⟨500, 5, 10, 1200, "Gold"⟩,
   ⟨1000, 10, 20, 1500, "Platinum"⟩]

/-- Mirror of `_getUserTier`: start from `rewardTiers[0]` and take the last
tier whose `minTrustScore` the score reaches. -/
def getUserTier (trustScore : Nat) : RewardTier :=
  rewardTiers.foldl
    (fun userTier t => if trustScore ≥ t.minTrustScore then t else userTier)
    ⟨0, 1, 2, 800, "Bronze"⟩

/-- Mirror of the Solidity enum `QoneqtInteractionType`. -/
inductive QoneqtInteractionType where
  | LIKE | COMMENT | SHARE | POST | FOLLOW
  | STORY_VIEW | MESSAGE | GROUP_JOIN | EVENT_ATTEND | MARKETPLACE_PURCHASE
deriving DecidableEq

/-- Base rewards set in the constructor (`qoneqtBaseRewards`), in QTO wei. -/
def qoneqtBaseRewards : QoneqtInteractionType → Nat
  | .LIKE => 1 * 10 ^ 15
  | .COMMENT => 5 * 10 ^ 15
  | .SHARE => 3 * 10 ^ 15
  | .POST => 10 * 10 ^ 15
  | .FOLLOW => 2 * 10 ^ 15
  | .STORY_VIEW => 1 * 10 ^ 14
  | .MESSAGE => 2 * 10 ^ 15
  | .GROUP_JOIN => 8 * 10 ^ 15
  | .EVENT_ATTEND => 15 * 10 ^ 15
  | .MARKETPLACE_PURCHASE => 25 * 10 ^ 15

def TOTAL_SUPPLY : Nat := 1000000000 * 10 ^ 18

def LIKE_WEIGHT : Nat := 1
def COMMENT_WEIGHT : Nat := 3
def POST_WEIGHT : Nat := 5
def HELPFUL_WEIGHT : Nat := 10
def REPORT_PENALTY : Nat := 20
def VALIDATION_WEIGHT : Nat := 2
def VALIDATION_BASE_REWARD : Nat := 10
def SUCCESSFUL_VALIDATION_BONUS : Nat := 5

/-- Contract-wide mutable state (the storage variables the claims touch). -/
structure LedgerState where
  userProfiles : Nat → UserProfile
  qtoBalances : Nat → Nat
  qtoTotalSupply : Nat
  hasUserRatedUser : Nat → Nat → Bool
  totalInteractions : Nat
  totalRewardsDistributed : Nat
  pendingRewards : Nat → Nat

/-- Model of `address(this)`, the treasury address. -/
def contractAddr : Nat := 0

/-- Post-constructor state: the contract holds the whole QTO supply. -/
def initialState : LedgerState where
  userProfiles := fun _ => defaultProfile
  qtoBalances := fun a => if a = contractAddr then TOTAL_SUPPLY else 0
  qtoTotalSupply := TOTAL_SUPPLY
  hasUserRatedUser := fun _ _ => false
  totalInteractions := 0
  totalRewardsDistributed := 0
  pendingRewards := fun _ => 0

def setProfile (f : Nat → UserProfile) (a : Nat) (p : UserProfile) :
    Nat → UserProfile :=
  fun x => if x = a then p else f x

def setBal (f : Nat → Nat) (a : Nat) (v : Nat) : Nat → Nat :=
  fun x => if x = a then v else f x

/-- Mirror of `registerUser`. -/
def registerUser (s : LedgerState) (sender : Nat) (username : String) :
    Option LedgerState :=
  if (s.userProfiles sender).isActive then none
  else
    some { s with
      userProfiles := setProfile s.userProfiles sender
        ⟨username, 0, 0, 0, 0, 0, 0, 100, true, 0, 0, 0, 0, 0, 0, 0, 0⟩ }

/-- The pure recomputation inside `_updateTrustScore`: weighted positive
counters against the report penalty, then the source's branch structure. -/
def computeTrustScore (p : UserProfile) : Nat :=
  let positiveScore := p.likes * LIKE_WEIGHT + p.comments * COMMENT_WEIGHT +
    p.posts * POST_WEIGHT + p.helpfulResponses * HELPFUL_WEIGHT +
    p.validationCount * VALIDATION_WEIGHT
  let negativeScore := p.reportsReceived * REPORT_PENALTY
  if positiveScore > negativeScore then
    let newScore := 100 + (positiveScore - negativeScore)
    if newScore > 1000 then 1000 else newScore
  else 0

/-- Mirror of `_updateTrustScore(user)` acting on the state. -/
def applyTrustScoreUpdate (s : LedgerState) (user : Nat) : LedgerState :=
  let p := s.userProfiles user
  { s with
      userProfiles := setProfile s.userProfiles user
        ({ p with trustScore := computeTrustScore p }) }

/-- Mirror of `_recordInteraction` (the history push carries no claim-relevant
state beyond the counter). -/
def recordInteractionEntry (s : LedgerState) : LedgerState :=
  { s with totalInteractions := s.totalInteractions + 1 }

/-- Mirror of `recordLike`. -/
def recordLike (s : LedgerState) (sender : Nat) : Option LedgerState :=
  if ¬(s.userProfiles sender).isActive then none
  else
    let s1 := recordInteractionEntry s
    let p := s1.userProfiles sender
    let s2 := { s1 with
      userProfiles := setProfile s1.userProfiles sender
        ({ p with likes := p.likes + 1 }) }
    some (applyTrustScoreUpdate s2 sender)

/-- Mirror of `recordComment`. -/
def recordComment (s : LedgerState) (sender : Nat) : Option LedgerState :=
  if ¬(s.userProfiles sender).isActive then none
  else
    let s1 := recordInteractionEntry s
    let p := s1.userProfiles sender
    let s2 := { s1 with
      userProfiles := setProfile s1.userProfiles sender
        ({ p with comments := p.comments + 1 }) }
    some (applyTrustScoreUpdate s2 sender)

/-- Mirror of `recordPost`. -/
def recordPost (s : LedgerState) (sender : Nat) : Option LedgerState :=
  if ¬(s.userProfiles sender).isActive then none
  else
    let s1 := recordInteractionEntry s
    let p := s1.userProfiles sender
    let s2 := { s1 with
      userProfiles := setProfile s1.userProfiles sender
        ({ p with posts := p.posts + 1 }) }
    some (applyTrustScoreUpdate s2 sender)

/-- Mirror of `recordHelpfulResponse`. -/
def recordHelpfulResponse (s : LedgerState) (sender helper : Nat) :
    Option LedgerState :=
  if ¬(s.userProfiles sender).isActive then none
  else if helper = sender then none
  else if s.hasUserRatedUser sender helper then none
  else
    let s1 := recordInteractionEntry s
    let p := s1.userProfiles helper
    let s2 := { s1 with
      userProfiles := setProfile s1.userProfiles helper
        ({ p with helpfulResponses := p.helpfulResponses + 1 }),
      hasUserRatedUser := fun a b =>
        if a = sender ∧ b = helper then true else s1.hasUserRatedUser a b }
    some (applyTrustScoreUpdate s2 helper)

/-- Mirror of `reportUser`. -/
def reportUser (s : LedgerState) (sender reported : Nat) : Option LedgerState :=
  if ¬(s.userProfiles sender).isActive then none
  else if reported = sender then none
  else if ¬(s.userProfiles reported).isActive then none
  else
    let s1 := recordInteractionEntry s
    let pr := s1.userProfiles reported
    let s2 := { s1 with
      userProfiles := setProfile s1.userProfiles reported
        ({ pr with reportsReceived := pr.reportsReceived + 1 }) }
    let ps := s2.userProfiles sender
    let s3 := { s2 with
      userProfiles := setProfile s2.userProfiles sender
        ({ ps with reportsMade := ps.reportsMade + 1 }) }
    some (applyTrustScoreUpdate s3 reported)

/-- Mirror of `_awardReward`: converts to wei, applies the tier multiplier,
checks the treasury and moves the tokens.  `none` models the
`"Contract insufficient QTO balance"` revert. -/
def awardReward (s : LedgerState) (user amount : Nat) : Option LedgerState :=
  let p := s.userProfiles user
  let qtoAmount := amount * 10 ^ 18
  let tier := getUserTier p.trustScore
  let finalAmount := qtoAmount * tier.qtoMultiplier / 1000
  if s.qtoBalances contractAddr < finalAmount then none
  else
    let bal1 := setBal s.qtoBalances contractAddr
      (s.qtoBalances contractAddr - finalAmount)
    let bal2 := setBal bal1 user (bal1 user + finalAmount)
    some { s with
      qtoBalances := bal2,
      userProfiles := setProfile s.userProfiles user
        ({ p with
          qtoBalance := p.qtoBalance + finalAmount,
          totalQtoEarned := p.totalQtoEarned + finalAmount,
          totalEarned := p.totalEarned + amount }),
      totalRewardsDistributed := s.totalRewardsDistributed + amount }

/-- Mirror of `recordValidation` (the source requires `validator == msg.sender`,
so the validator is the sender). -/
def recordValidation (s : LedgerState) (sender : Nat) (successful : Bool) :
    Option LedgerState :=
  if ¬(s.userProfiles sender).isActive then none
  else
    let p := s.userProfiles sender
    let p1 := { p with
      validationCount := p.validationCount + 1,
      successfulValidations :=
        p.successfulValidations + (if successful then 1 else 0) }
    let reward0 := VALIDATION_BASE_REWARD +
      (if successful then SUCCESSFUL_VALIDATION_BONUS else 0)
    let tier := getUserTier p1.trustScore
    let reward := reward0 * tier.validationReward / tier.baseReward
    let s1 := recordInteractionEntry
      { s with userProfiles := setProfile s.userProfiles sender p1 }
    match awardReward s1 sender reward with
    | none => none
    | some s2 => some (applyTrustScoreUpdate s2 sender)

/-- Mirror of `awardCommunityReward`. -/
def awardCommunityReward (s : LedgerState) (sender user amount : Nat) :
    Option LedgerState :=
  if ¬(s.userProfiles sender).isActive then none
  else if ¬(s.userProfiles user).isActive then none
  else awardReward s user amount

/-- Per-type factor inside `_updateTrustScoreFromQoneqt`. -/
def qoneqtTrustBoostFactor : QoneqtInteractionType → Nat
  | .LIKE => 1
  | .COMMENT => 3
  | .SHARE => 2
  | .POST => 5
  | .FOLLOW => 2
  | .STORY_VIEW => 1
  | .MESSAGE => 2
  | .GROUP_JOIN => 4
  | .EVENT_ATTEND => 6
  | .MARKETPLACE_PURCHASE => 8

/-- Mirror of `_updateTrustScoreFromQoneqt` acting on a profile. -/
def applyQoneqtTrustBoost (p : UserProfile)
    (interactionType : QoneqtInteractionType) (aiSignificance : Nat) :
    UserProfile :=
  let trustBoost := aiSignificance * qoneqtTrustBoostFactor interactionType / 1000
  { p with trustScore :=
      if p.trustScore + trustBoost > 1000 then 1000
      else p.trustScore + trustBoost }

/-- Mirror of `processQoneqtInteraction`.  Note what the source does here: it
credits `qtoBalances[user]` but never debits `qtoBalances[address(this)]` and
never checks the treasury. -/
def processQoneqtInteraction (s : LedgerState) (sender user : Nat)
    (interactionType : QoneqtInteractionType) (aiSignificance : Nat) :
    Option LedgerState :=
  if ¬(s.userProfiles sender).isActive then none
  else if ¬(s.userProfiles user).isActive then none
  else if aiSignificance > 1000 then none
  else
    let baseReward := qoneqtBaseRewards interactionType
    let significanceMultiplier := aiSignificance
    let significanceReward := baseReward * significanceMultiplier / 1000
    let userTier := getUserTier (s.userProfiles user).trustScore
    let tierMultipliedReward := significanceReward * userTier.qtoMultiplier / 1000
    let p := s.userProfiles user
    let p1 := { p with
      qtoBalance := p.qtoBalance + tierMultipliedReward,
      totalQtoEarned := p.totalQtoEarned + tierMultipliedReward,
      qoneqtInteractions := p.qoneqtInteractions + 1 }
    let totalSignificance := p1.avgSignificanceScore * (p1.qoneqtInteractions - 1)
    let p2 := { p1 with avgSignificanceScore :=
      (totalSignificance + aiSignificance) / p1.qoneqtInteractions }
    let p3 := applyQoneqtTrustBoost p2 interactionType aiSignificance
    some { s with
      userProfiles := setProfile s.userProfiles user p3,
      qtoBalances := setBal s.qtoBalances user
        (s.qtoBalances user + tierMultipliedReward) }

/-- Mirror of `emergencyWithdrawQto` (no access control in the source). -/
def emergencyWithdrawQto (s : LedgerState) (toAddr amount : Nat) :
    Option LedgerState :=
  if s.qtoBalances contractAddr < amount then none
  else
    let bal1 := setBal s.qtoBalances contractAddr
      (s.qtoBalances contractAddr - amount)
    let bal2 := setBal bal1 toAddr (bal1 toAddr + amount)
    some { s with qtoBalances := bal2 }

/-- Mirror of `fundContractQto`. -/
def fundContractQto (s : LedgerState) (sender amount : Nat) :
    Option LedgerState :=
  if s.qtoBalances sender < amount then none
  else
    let bal1 := setBal s.qtoBalances sender (s.qtoBalances sender - amount)
    let bal2 := setBal bal1 contractAddr (bal1 contractAddr + amount)
    some { s with qtoBalances := bal2 }

/-- The external entry points the spec's ledger sequences range over. -/
inductive LedgerOp where
  | register (sender : Nat) (username : String)
  | like (sender : Nat)
  | comment (sender : Nat)
  | post (sender : Nat)
  | helpful (sender helper : Nat)
  | report (sender reported : Nat)
  | validation (sender : Nat) (successful : Bool)
  | communityReward (sender user amount : Nat)
  | qoneqt (sender user : Nat) (interactionType : QoneqtInteractionType)
      (aiSignificance : Nat)
  | emergencyWithdraw (toAddr amount : Nat)
  | fund (sender amount : Nat)

/-- One transaction; `none` is a revert. -/
def step (s : LedgerState) : LedgerOp → Option LedgerState
  | .register sender username => registerUser s sender username
  | .like sender => recordLike s sender
  | .comment sender => recordComment s sender
  | .post sender => recordPost s sender
  | .helpful sender helper => recordHelpfulResponse s sender helper
  | .report sender reported => reportUser s sender reported
  | .validation sender successful => recordValidation s sender successful
  | .communityReward sender user amount => awardCommunityReward s sender user amount
  | .qoneqt sender user t sig => processQoneqtInteraction s sender user t sig
  | .emergencyWithdraw toAddr amount => emergencyWithdrawQto s toAddr amount
  | .fund sender amount => fundContractQto s sender amount

/-- Running a sequence of transactions; a revert leaves the state unchanged. -/
def execOps (s : LedgerState) : List LedgerOp → LedgerState
  | [] => s
  | op :: ops => execOps ((step s op).getD s) ops

end Ledger

/-!
Part 2 embeds the gateway (TypeScript sources).  External collaborators —
the downstream RPC endpoint (`rpcProxyService.forwardRequest`), the community
validator (`blockchainService.validateTransactionWithCommunity`) and the AI
validation service — are modelled as oracle functions supplied in a
`Collaborators` record; a thrown exception is an `Except.error`.  JSON values
relevant to the code paths are modelled by small sum types; wall-clock
timestamps are modelled by the monotone call counter (`generateId` produces
unique, time-ordered ids).
-/

namespace Gateway

inductive RiskLevel where
  | LOW | MEDIUM | HIGH
deriving DecidableEq

/-- A JSON-RPC id value; `null` is a possible value of the `id` property. -/
inductive RpcId where
  | num (n : Int)
  | str (s : String)
  | null
deriving DecidableEq

/-- First-position request parameters as the code inspects them: an object
with optional `from`/`value` members, a plain string, or anything else. -/
inductive JsParam where
  | obj (fromAddr : Option String) (value : Option String)
  | str (s : String)
  | other
deriving DecidableEq

/-- Mirror of the `RPCRequest` wire shape; `idField = none` models a request
without an `id` property (`hasOwnProperty('id')` false). -/
structure RPCRequest where
  jsonrpc : String
  method : String
  params : List JsParam
  idField : Option RpcId
deriving DecidableEq

/-- Data objects attached to synthesized JSON-RPC errors. -/
structure ErrorData where
  riskLevel : Option RiskLevel := none
  reasoning : Option String := none
  communityTrustScore : Option Nat := none
  callId : Option Nat := none
  approvalEndpoint : Option Nat := none
  message : Option String := none
deriving DecidableEq

structure RPCError where
  code : Int
  message : String
  data : Option ErrorData := none
deriving DecidableEq

structure RPCResponse where
  jsonrpc : String
  result : Option String := none
  error : Option RPCError := none
  id : Option RpcId := none
deriving DecidableEq

structure AIValidationResult where
  isValid : Bool
  riskLevel : RiskLevel
  reasoning : String
  communityTrustScore : Option Int := none
  shouldProceed : Bool
deriving DecidableEq

/-- Mirror of `utils/helpers.ts` `readOnlyMethods`. -/
def readOnlyMethods : List String :=
  ["eth_blockNumber", "eth_getBalance", "eth_getCode", "eth_getStorageAt",
   "eth_call", "eth_estimateGas", "eth_gasPrice", "eth_getBlockByHash",
   "eth_getBlockByNumber", "eth_getTransactionByHash",
   "eth_getTransactionReceipt", "eth_getLogs", "net_version",
   "web3_clientVersion"]

def isReadOnlyMethod (method : String) : Bool :=
  readOnlyMethods.contains method

/-- Mirror of `utils/helpers.ts` `highRiskMethods`. -/
def highRiskMethods : List String :=
  ["eth_sendTransaction", "eth_sendRawTransaction", "personal_sendTransaction",
   "personal_unlockAccount", "miner_start", "miner_stop", "admin_addPeer",
   "debug_traceTransaction"]

def isHighRiskMethod (method : String) : Bool :=
  highRiskMethods.contains method

/-- JavaScript string primitives, modelled as structural recursion over the
character list so that concrete evaluation reduces in the kernel. -/
def splitCharAux (c : Char) : List Char → List (List Char)
  | [] => [[]]
  | x :: xs =>
    let rest := splitCharAux c xs
    if x = c then [] :: rest
    else
      match rest with
      | [] => [[x]]
      | g :: gs => (x :: g) :: gs

/-- JavaScript `String.prototype.split` with a one-character separator. -/
def jsSplit (sep : Char) (s : String) : List String :=
  (splitCharAux sep s.data).map (fun cs => ⟨cs⟩)

/-- JavaScript `String.prototype.trim`. -/
def jsTrim (s : String) : String :=
  ⟨((s.data.dropWhile Char.isWhitespace).reverse.dropWhile
      Char.isWhitespace).reverse⟩

/-- JavaScript `String.prototype.startsWith`. -/
def jsStartsWith (s : String) (pre : String) : Bool :=
  pre.data.isPrefixOf s.data

/-- JavaScript `String.prototype.toLowerCase` (ASCII, as the parsed field
values are ASCII). -/
def jsToLower (s : String) : String := ⟨s.data.map Char.toLower⟩

/-- JavaScript `String.prototype.toUpperCase` (ASCII). -/
def jsToUpper (s : String) : String := ⟨s.data.map Char.toUpper⟩

/-- Mirror of `helpers.ts` `extractUserAddress`.  The source's fall-through
`if` chain is flattened: a method that enters a branch and fails its inner
check cannot match any later branch, so the flat chain is extensionally the
same.  A non-string first parameter of a `personal_*` method yields no
extractable string address. -/
def extractUserAddress (r : RPCRequest) : Option String :=
  if r.method = "eth_sendTransaction" then
    match r.params.head? with
    | some (.obj (some f) _) => some f
    | _ => none
  else if r.method = "eth_accounts" ∨ r.method = "personal_listAccounts" then
    none
  else if jsStartsWith r.method "personal_" then
    match r.params.head? with
    | some (.str s) => some s
    | _ => none
  else if jsStartsWith r.method "wallet_" then
    match r.params.head? with
    | some (.obj (some f) _) => some f
    | _ => none
  else none

/-- Mirror of `AIValidationService.fallbackValidation` (`aiValidationService.ts`):
the deterministic, side-effect-free policy used when the external classifier
errors or times out. -/
def fallbackValidation (request : RPCRequest) : AIValidationResult :=
  if isReadOnlyMethod request.method then
    { isValid := true, riskLevel := .LOW,
      reasoning := "Read-only method - fallback validation",
      shouldProceed := true }
  else if isHighRiskMethod request.method then
    { isValid := false, riskLevel := .HIGH,
      reasoning := "High-risk method blocked by fallback validation",
      shouldProceed := false }
  else
    { isValid := true, riskLevel := .MEDIUM,
      reasoning := "Standard method - fallback validation",
      shouldProceed := true }

/-- Value of the digit characters, most significant first. -/
def digitsToNat (cs : List Char) : Nat :=
  cs.foldl (fun acc c => acc * 10 + (c.toNat - 48)) 0

/-- JavaScript `parseInt` on an already-trimmed string: optional sign, then
the longest digit prefix; `none` models `NaN`. -/
def parseJsInt (s : String) : Option Int :=
  let withSign : Int × List Char :=
    match s.data with
    | '-' :: cs => (-1, cs)
    | '+' :: cs => (1, cs)
    | cs => (1, cs)
  let digits := withSign.2.takeWhile Char.isDigit
  if digits.isEmpty then none
  else some (withSign.1 * (digitsToNat digits : Int))

/-- Value after the first colon of a field line, trimmed
(the source's `line.split(':')[1].trim()`). -/
def fieldValue (line : String) : String :=
  jsTrim ((jsSplit ':' line).getD 1 "")

/-- Accumulator for `parseAIResponse`, holding the policy defaults the source
initialises before scanning the response lines. -/
structure ParseAcc where
  riskLevel : RiskLevel
  shouldProceed : Bool
  reasoning : String
  communityTrustScore : Option Int
deriving DecidableEq

/-- One line of the scan loop inside `parseAIResponse`. -/
def parseStep (acc : ParseAcc) (line : String) : ParseAcc :=
  if jsStartsWith line "RISK_LEVEL:" then
    let level := jsToUpper (fieldValue line)
    if level = "LOW" then { acc with riskLevel := .LOW }
    else if level = "MEDIUM" then { acc with riskLevel := .MEDIUM }
    else if level = "HIGH" then { acc with riskLevel := .HIGH }
    else acc
  else if jsStartsWith line "SHOULD_PROCEED:" then
    { acc with shouldProceed := jsToLower (fieldValue line) == "true" }
  else if jsStartsWith line "REASONING:" then
    { acc with
      reasoning := jsTrim (String.intercalate ":" ((jsSplit ':' line).drop 1)) }
  else if jsStartsWith line "COMMUNITY_TRUST_SCORE:" then
    match parseJsInt (fieldValue line) with
    | some score => { acc with communityTrustScore := some score }
    | none => acc
  else acc

/-- Mirror of `AIValidationService.parseAIResponse`: split into nonempty
lines, scan them, and assemble the verdict.  The source's `try` body cannot
throw (every matched line contains a colon), so the catch path is dead. -/
def parseAIResponse (aiResponse : String) : AIValidationResult :=
  let lines := (jsSplit '\n' aiResponse).filter (fun l => jsTrim l ≠ "")
  let acc := lines.foldl parseStep
    { riskLevel := .MEDIUM, shouldProceed := false,
      reasoning := "AI analysis completed", communityTrustScore := none }
  { isValid := acc.shouldProceed, riskLevel := acc.riskLevel,
    reasoning := acc.reasoning, communityTrustScore := acc.communityTrustScore,
    shouldProceed := acc.shouldProceed }

end Gateway

namespace Gateway

inductive CallStatus where
  | pending | validated | rejected | completed | failed
deriving DecidableEq

/-- Record stored by the interceptor for the community result. -/
structure CommunityRecord where
  userTrustScore : Nat
  recommendation : String
  reasoning : String
deriving DecidableEq

/-- Result shape of `blockchainService.validateTransactionWithCommunity` as
the interceptor consumes it. -/
structure CommunityOutcome where
  isValid : Bool
  trustLevel : String
  warnings : List String
  profileTrustScore : Option Nat
deriving DecidableEq

/-- Mirror of the `InterceptedCall` record.  `timestamp` is the monotone call
counter (see the Part 2 header); `processingTimeMs` is wall-clock derived and
modelled as 0. -/
structure InterceptedCall where
  id : Nat
  timestamp : Nat
  originalRequest : RPCRequest
  aiValidation : AIValidationResult
  communityValidation : Option CommunityRecord := none
  userAddress : Option String := none
  status : CallStatus
  response : Option RPCResponse := none
  processingTimeMs : Nat := 0
deriving DecidableEq

/-- The module-level `interceptedCalls` map plus the id source.  A JS `Map`
iterates in insertion order; `entries` keeps that order. -/
structure CallStore where
  entries : List (Nat × InterceptedCall) := []
  nextId : Nat := 0
deriving DecidableEq

/-- `Map.set`: replace the binding if the key exists, else append. -/
def mapSet : List (Nat × InterceptedCall) → Nat → InterceptedCall →
    List (Nat × InterceptedCall)
  | [], k, v => [(k, v)]
  | (k', v') :: rest, k, v =>
    if k' = k then (k, v) :: rest else (k', v') :: mapSet rest k v

/-- `Map.get`. -/
def mapGet : List (Nat × InterceptedCall) → Nat → Option InterceptedCall
  | [], _ => none
  | (k', v') :: rest, k => if k' = k then some v' else mapGet rest k

/-- External collaborators of the interceptor: the AI validation service
(total — `validateRPCCall` catches its own failures into the fallback), the
community validator and the downstream RPC endpoint (both may throw). -/
structure Collaborators where
  validate : RPCRequest → Option String → AIValidationResult
  community : String → JsParam → Except String CommunityOutcome
  forward : RPCRequest → Except String RPCResponse

structure AutoApproveConfig where
  enabled : Bool
  lowRiskOnly : Bool
  highTrustUsersOnly : Bool
deriving DecidableEq

structure Config where
  aiValidationEnabled : Bool
  communityValidationEnabled : Bool
  autoApprove : AutoApproveConfig
deriving DecidableEq

/-- The placeholder verdict a fresh call starts with. -/
def pendingValidation : AIValidationResult :=
  { isValid := false, riskLevel := .MEDIUM, reasoning := "Pending validation",
    shouldProceed := false }

/-- The combination step of `interceptRPCCall` (lines 89–100): AI and
community must both approve; on disagreement the stored AI verdict's
`shouldProceed` is forced false and the reasonings are merged. -/
def combineWithCommunity (validation : AIValidationResult)
    (cv : CommunityOutcome) : AIValidationResult :=
  if !(validation.shouldProceed && cv.isValid) then
    { validation with
      shouldProceed := false,
      reasoning := String.intercalate "; "
        ((validation.reasoning :: cv.warnings).filter (fun x => x ≠ "")) }
  else validation

/-- The `communityValidation` record the interceptor stores (lines 83–87). -/
def communityRecordOf (cv : CommunityOutcome) : CommunityRecord :=
  { userTrustScore := cv.profileTrustScore.getD 0,
    recommendation := if cv.isValid then "approve" else "reject",
    reasoning :=
      let joined := String.intercalate "; " cv.warnings
      if joined = "" then "Community validation completed" else joined }

/-- Builds a synthesized JSON-RPC error response. -/
def mkErrorResponse (jsonrpc : String) (code : Int) (message : String)
    (data : Option ErrorData) (idVal : Option RpcId) : RPCResponse :=
  { jsonrpc := jsonrpc,
    error := some { code := code, message := message, data := data },
    id := idVal }

/-- Forwarding tail of the per-request pipeline (lines 165–196): proxy the
request downstream; `completed` on success, `failed` with a wrapped `-32603`
error on a thrown forwarding error. -/
def forwardPhase (C : Collaborators) (st : CallStore) (callId : Nat)
    (call : InterceptedCall) (request : RPCRequest) :
    RPCResponse × CallStore :=
  match C.forward request with
  | .ok resp =>
    let call' := { call with response := some resp, status := .completed }
    (resp, { st with entries := mapSet st.entries callId call' })
  | .error msg =>
    let errorResponse : RPCResponse :=
      mkErrorResponse request.jsonrpc (-32603) "Internal error"
        (some { message := some msg }) request.idField
    let call' := { call with response := some errorResponse, status := .failed }
    (errorResponse, { st with entries := mapSet st.entries callId call' })

/-- The community-validation block of the per-request loop (lines 73–107):
when enabled and an address was extracted, consult the community validator;
on success combine the verdicts and record the community result, on a thrown
error continue with the AI verdict alone. -/
def combinedValidation (cfg : Config) (C : Collaborators)
    (request : RPCRequest) (validation : AIValidationResult) :
    AIValidationResult × Option CommunityRecord :=
  match extractUserAddress request with
  | some addr =>
    if cfg.communityValidationEnabled then
      match C.community addr (request.params.headD .other) with
      | .ok cv => (combineWithCommunity validation cv,
                   some (communityRecordOf cv))
      | .error _ => (validation, none)
    else (validation, none)
  | none => (validation, none)

/-- One iteration of the per-request loop of `interceptRPCCall`
(lines 41–196): create the call, run AI and community validation, combine,
then reject (`-32001`), hold for manual approval (`-32002`) or forward. -/
def processRequest (cfg : Config) (C : Collaborators) (st : CallStore)
    (request : RPCRequest) : RPCResponse × CallStore :=
  let callId := st.nextId
  let userAddress := extractUserAddress request
  let call0 : InterceptedCall :=
    { id := callId, timestamp := callId, originalRequest := request,
      aiValidation := pendingValidation, status := .pending,
      userAddress := userAddress }
  let st1 : CallStore :=
    { entries := mapSet st.entries callId call0, nextId := callId + 1 }
  if cfg.aiValidationEnabled then
    let validation := C.validate request userAddress
    let combined := combinedValidation cfg C request validation
    let call3 := { call0 with
      aiValidation := combined.1, communityValidation := combined.2 }
    let call4 := { call3 with
      status := if call3.aiValidation.shouldProceed then .validated
                else .rejected }
    let shouldAutoApprove := cfg.autoApprove.enabled &&
      (call4.aiValidation.riskLevel == .LOW || !cfg.autoApprove.lowRiskOnly) &&
      (!cfg.autoApprove.highTrustUsersOnly ||
        decide (500 ≤ (call4.communityValidation.map
          (fun c => c.userTrustScore)).getD 0))
    if !call4.aiValidation.shouldProceed then
      let errorData : ErrorData :=
        { riskLevel := some call4.aiValidation.riskLevel,
          reasoning := some call4.aiValidation.reasoning,
          communityTrustScore := call4.communityValidation.map
            (fun c => c.userTrustScore),
          callId := some callId }
      let errorResponse : RPCResponse :=
        mkErrorResponse request.jsonrpc (-32001) "Request rejected by validation"
          (some errorData) request.idField
      let call5 := { call4 with
        response := some errorResponse, status := .rejected }
      (errorResponse, { st1 with entries := mapSet st1.entries callId call5 })
    else if !shouldAutoApprove && !(call4.aiValidation.riskLevel == .LOW) then
      let pendingData : ErrorData :=
        { riskLevel := some validation.riskLevel,
          reasoning := some validation.reasoning,
          callId := some callId,
          approvalEndpoint := some callId }
      let pendingResponse : RPCResponse :=
        mkErrorResponse request.jsonrpc (-32002) "Manual approval required"
          (some pendingData) request.idField
      let call5 := { call4 with response := some pendingResponse }
      (pendingResponse, { st1 with entries := mapSet st1.entries callId call5 })
    else
      forwardPhase C st1 callId call4 request
  else
    forwardPhase C st1 callId call0 request

/-- An inbound HTTP body: a single JSON-RPC object or a batch array. -/
inductive RequestBody where
  | single (r : RPCRequest)
  | batch (rs : List RPCRequest)

/-- A JSON response body: single object or array. -/
inductive JsonBody where
  | obj (r : RPCResponse)
  | arr (rs : List RPCResponse)
deriving DecidableEq

/-- HTTP-level outcome: the 400 invalid-request reply, or a 200 JSON body. -/
inductive HttpOutcome where
  | badRequest (resp : RPCResponse)
  | okJson (body : JsonBody)
deriving DecidableEq

/-- JavaScript `request.id || null` (0, the empty string and null are falsy). -/
def jsIdOrNull : Option RpcId → Option RpcId
  | some (.num n) => if n = 0 then some .null else some (.num n)
  | some (.str s) => if s = "" then some .null else some (.str s)
  | _ => some .null

/-- The format check of lines 25–37: `jsonrpc` and `method` truthy and an
`id` property present. -/
def jsWellFormed (r : RPCRequest) : Bool :=
  !(r.jsonrpc == "") && !(r.method == "") && r.idField.isSome

def invalidRequestResponse (r : RPCRequest) : RPCResponse :=
  { jsonrpc := "2.0",
    error := some { code := -32600, message := "Invalid Request" },
    id := jsIdOrNull r.idField }

/-- The per-request loop over a validated batch, threading the store. -/
def processAll (cfg : Config) (C : Collaborators) :
    CallStore → List RPCRequest → List RPCResponse × CallStore
  | st, [] => ([], st)
  | st, r :: rs =>
    let first := processRequest cfg C st r
    let rest := processAll cfg C first.2 rs
    (first.1 :: rest.1, rest.2)

/-- Placeholder for the JavaScript `results[0]` read on an empty array;
unreachable for single-object bodies, which always produce one result. -/
def undefinedResponse : RPCResponse := { jsonrpc := "" }

/-- Mirror of `interceptRPCCall`: normalize to a request list, reject the
whole body with `-32600` if any element is malformed, else process each
request in order and answer in the same shape as the input. -/
def interceptRPCCall (cfg : Config) (C : Collaborators) (st : CallStore)
    (body : RequestBody) : HttpOutcome × CallStore :=
  let requests := match body with | .single r => [r] | .batch rs => rs
  let isArray := match body with | .single _ => false | .batch _ => true
  match requests.find? (fun r => !jsWellFormed r) with
  | some bad => (.badRequest (invalidRequestResponse bad), st)
  | none =>
    let out := processAll cfg C st requests
    if isArray then (.okJson (.arr out.1), out.2)
    else (.okJson (.obj (out.1.headD undefinedResponse)), out.2)

/-- Mirror of `getInterceptedCall`. -/
def getInterceptedCall (st : CallStore) (callId : Nat) :
    Option InterceptedCall :=
  mapGet st.entries callId

/-- Mirror of `approveCall`: only a call whose status is literally `pending`
is re-forwarded; every other call (missing, validated, rejected, completed,
failed) yields `null` and leaves the store untouched. -/
def approveCall (C : Collaborators) (st : CallStore) (callId : Nat) :
    Option RPCResponse × CallStore :=
  match mapGet st.entries callId with
  | none => (none, st)
  | some call =>
    if !(call.status == .pending) then (none, st)
    else
      match C.forward call.originalRequest with
      | .ok resp =>
        let call' := { call with response := some resp, status := .completed }
        (some resp, { st with entries := mapSet st.entries callId call' })
      | .error msg =>
        let errorResponse : RPCResponse :=
          mkErrorResponse call.originalRequest.jsonrpc (-32603)
            "Error during manual approval" (some { message := some msg })
            call.originalRequest.idField
        let call' := { call with
          response := some errorResponse, status := .failed }
        (some errorResponse, { st with entries := mapSet st.entries callId call' })

/-- Mirror of `getCallHistory`: every stored call, sorted newest first, then
truncated to 100. -/
def getCallHistory (st : CallStore) : List InterceptedCall :=
  (((st.entries.map Prod.snd).mergeSort
    (fun a b => decide (b.timestamp ≤ a.timestamp))).take 100)

end Gateway

/-!
Part 3: spec-side formalizations used for refinement comparison, and the
concrete fixtures the theorems evaluate the model on.
-/

namespace Ledger

/-- The trust-score formula as the SPEC states it:
`clamp(0, 1000, 100 + Σ(positiveWeights) − 20×reportsReceived)` with weights
like=1, comment=3, post=5, helpful=10, validation=2.  Stated over `Int` so the
clamp at 0 is meaningful; compared against `computeTrustScore`, the formula
the source actually implements. -/
def specClampTrustScore (p : UserProfile) : Int :=
  let positive : Int := p.likes * 1 + p.comments * 3 + p.posts * 5 +
    p.helpfulResponses * 10 + p.validationCount * 2
  let raw : Int := 100 + positive - 20 * (p.reportsReceived : Int)
  max 0 (min 1000 raw)

/-- Trace for the C3 counterexample and the C4/C1 scenarios: two registered
users. -/
def twoUserState : LedgerState :=
  execOps initialState [.register 1 "alice", .register 2 "bob"]

/-- C3 counterexample trace: user 1 collects five likes and one report. -/
def c3State : LedgerState :=
  execOps twoUserState [.like 1, .like 1, .like 1, .like 1, .like 1, .report 2 1]

/-- C4 scenario trace: POST interaction with significance 900 processed for
the freshly registered user 2. -/
def c4State : LedgerState :=
  execOps twoUserState [.qoneqt 1 2 .POST 900]

/-- C1 failing trace: drain the whole treasury, leaving it at zero. -/
def drainedState : LedgerState :=
  execOps twoUserState [.emergencyWithdraw 5 TOTAL_SUPPLY]

/-- Invariant of claim C5: all trust scores within the 0–1000 band. -/
def TrustInv (s : LedgerState) : Prop :=
  ∀ a, (s.userProfiles a).trustScore ≤ 1000

/-- Which account's counters a ledger operation updates (the six
`recordInteraction`-style entry points of claim C3). -/
def legacyTarget : LedgerOp → Option Nat
  | .like sender => some sender
  | .comment sender => some sender
  | .post sender => some sender
  | .helpful _ helper => some helper
  | .report _ reported => some reported
  | .validation sender _ => some sender
  | _ => none

end Ledger

namespace Gateway

/-- Error code of a response, when it carries an error object. -/
def respErrorCode (r : RPCResponse) : Option Int :=
  r.error.map (fun e => e.code)

/-- Risk level attached to a response's error data. -/
def respRiskLevel (r : RPCResponse) : Option RiskLevel :=
  (r.error.bind (fun e => e.data)).bind (fun d => d.riskLevel)

/-- Does a line carry a risk level `parseStep` accepts? -/
def isValidRiskLine (line : String) : Bool :=
  jsStartsWith line "RISK_LEVEL:" &&
    (let level := jsToUpper (fieldValue line)
     level == "LOW" || level == "MEDIUM" || level == "HIGH")

/-- Does a line set `shouldProceed` to true in `parseStep`? -/
def isProceedTrueLine (line : String) : Bool :=
  jsStartsWith line "SHOULD_PROCEED:" && jsToLower (fieldValue line) == "true"

/-- Fixture: configuration with both validators on and auto-approval off
(the defaults of `utils/config.ts` with no environment overrides). -/
def defaultConfig : Config :=
  { aiValidationEnabled := true, communityValidationEnabled := true,
    autoApprove := { enabled := false, lowRiskOnly := true,
                     highTrustUsersOnly := true } }

/-- Fixture: configuration with AI validation disabled. -/
def passthroughConfig : Config :=
  { aiValidationEnabled := false, communityValidationEnabled := true,
    autoApprove := { enabled := false, lowRiskOnly := true,
                     highTrustUsersOnly := true } }

/-- Fixture: a well-formed read-only request. -/
def reqBlockNumber : RPCRequest :=
  { jsonrpc := "2.0", method := "eth_blockNumber", params := [],
    idField := some (.num 1) }

/-- Fixture: a well-formed transaction-submission request. -/
def reqSendTx : RPCRequest :=
  { jsonrpc := "2.0", method := "eth_sendTransaction",
    params := [.obj (some "0xabc") (some "0x1")], idField := some (.num 7) }

/-- Fixture: a malformed request (no method). -/
def reqBad : RPCRequest :=
  { jsonrpc := "2.0", method := "", params := [], idField := some (.num 2) }

/-- Fixture: collaborators whose downstream endpoint echoes the request id,
whose AI validator returns a MEDIUM/proceed verdict and whose community
validator is down. -/
def echoCollaborators : Collaborators :=
  { validate := fun _ _ =>
      { isValid := true, riskLevel := .MEDIUM, reasoning := "ok",
        shouldProceed := true },
    community := fun _ _ => .error "connection refused",
    forward := fun r =>
      .ok { jsonrpc := "2.0", result := some "0x1", id := r.idField } }

/-- Fixture: collaborators whose AI validator hard-rejects with HIGH risk and
whose community validator vouches for the account. -/
def highRejectCollaborators : Collaborators :=
  { validate := fun _ _ =>
      { isValid := false, riskLevel := .HIGH,
        reasoning := "High-risk method blocked", shouldProceed := false },
    community := fun _ _ =>
      .ok { isValid := true, trustLevel := "very_high",
            warnings := [], profileTrustScore := some 1000 },
    forward := fun r =>
      .ok { jsonrpc := "2.0", result := some "0x1", id := r.idField } }

/-- Fixture: the empty call store. -/
def emptyStore : CallStore := {}

/-- Fixture: store state after a MEDIUM-risk call was approved by validation
but held for manual review. -/
def heldStore : CallStore :=
  (processRequest defaultConfig echoCollaborators emptyStore reqSendTx).2

/-- Fixture: the response returned for that held call. -/
def heldResponse : RPCResponse :=
  (processRequest defaultConfig echoCollaborators emptyStore reqSendTx).1

/-- Fixture: store holding 101 completed calls (AI validation disabled, all
forwarded), exceeding the history bound. -/
def store101 : CallStore :=
  (processAll passthroughConfig echoCollaborators emptyStore
    (List.replicate 101 reqBlockNumber)).2

/-- Fixture: a well-formed read-only request with a distinct id. -/
def reqGasPrice : RPCRequest :=
  { jsonrpc := "2.0", method := "eth_gasPrice", params := [],
    idField := some (.num 5) }

/-- Placeholder entry for list defaults in concrete statements. -/
def dummyEntry : Nat × InterceptedCall :=
  (0, { id := 0, timestamp := 0, originalRequest := reqBlockNumber,
        aiValidation := pendingValidation, status := .pending })

/-- Fixture: a single-entry store for the C8 witness. -/
def oneCallStore : CallStore :=
  (processAll passthroughConfig echoCollaborators emptyStore
    [reqBlockNumber]).2

end Gateway

/-!
Part 4: theorems.
-/

open Ledger Gateway


/-- The recomputed trust score never exceeds the 1000 cap. -/
theorem computeTrustScore_le (p : UserProfile) : computeTrustScore p ≤ 1000 := by
  simp only [computeTrustScore]
  split
  · split <;> omega
  · omega

/-- The qoneqt trust boost never pushes a score past the 1000 cap. -/
theorem applyQoneqtTrustBoost_le (p : UserProfile)
    (t : QoneqtInteractionType) (sig : Nat) :
    (applyQoneqtTrustBoost p t sig).trustScore ≤ 1000 := by
  simp only [applyQoneqtTrustBoost]
  split <;> omega

theorem trustInv_initial : TrustInv initialState := by
  intro a; simp [initialState, defaultProfile]

theorem trustInv_setProfile {s : LedgerState} {a : Nat} {p : UserProfile}
    (h : TrustInv s) (hp : p.trustScore ≤ 1000) :
    ∀ x, ((setProfile s.userProfiles a p) x).trustScore ≤ 1000 := by
  intro x
  simp only [setProfile]
  split
  · exact hp
  · exact h x

theorem trustInv_applyTrustScoreUpdate {s : LedgerState} (h : TrustInv s)
    (u : Nat) : TrustInv (applyTrustScoreUpdate s u) := by
  intro x
  simp only [applyTrustScoreUpdate, setProfile]
  split
  · exact computeTrustScore_le _
  · exact h x

theorem trustInv_awardReward {s s' : LedgerState} {user amount : Nat}
    (h : TrustInv s) (heq : awardReward s user amount = some s') :
    TrustInv s' := by
  simp only [awardReward] at heq
  split at heq
  · exact absurd heq (by simp)
  · cases heq
    intro x
    simp only [setProfile]
    split
    · exact h user
    · exact h x

theorem awardReward_trust_eq {s s' : LedgerState} {user amount : Nat}
    (heq : awardReward s user amount = some s') :
    ∀ x, (s'.userProfiles x).trustScore = (s.userProfiles x).trustScore := by
  simp only [awardReward] at heq
  split at heq
  · exact absurd heq (by simp)
  · cases heq
    intro x
    simp only [setProfile]
    split
    · next hx => rw [hx]
    · rfl

theorem trustInv_step (s : LedgerState) (op : LedgerOp) (h : TrustInv s) :
    TrustInv ((step s op).getD s) := by
  cases op with
  | register sender username =>
    simp only [step, registerUser]
    split
    · simpa
    · simp only [Option.getD_some]
      intro x
      simp only [setProfile]
      split
      · simp
      · exact h x
  | like sender =>
    simp only [step, recordLike]
    split
    · simpa
    · simp only [Option.getD_some]
      intro x
      simp only [applyTrustScoreUpdate, recordInteractionEntry, setProfile]
      split
      · exact computeTrustScore_le _
      · exact h x
  | comment sender =>
    simp only [step, recordComment]
    split
    · simpa
    · simp only [Option.getD_some]
      intro x
      simp only [applyTrustScoreUpdate, recordInteractionEntry, setProfile]
      split
      · exact computeTrustScore_le _
      · exact h x
  | post sender =>
    simp only [step, recordPost]
    split
    · simpa
    · simp only [Option.getD_some]
      intro x
      simp only [applyTrustScoreUpdate, recordInteractionEntry, setProfile]
      split
      · exact computeTrustScore_le _
      · exact h x
  | helpful sender helper =>
    simp only [step, recordHelpfulResponse]
    split
    · simpa
    · split
      · simpa
      · split
        · simpa
        · simp only [Option.getD_some]
          intro x
          simp only [applyTrustScoreUpdate, recordInteractionEntry, setProfile]
          split
          · exact computeTrustScore_le _
          · exact h x
  | report sender reported =>
    simp only [step, reportUser]
    split
    · simpa
    · split
      · simpa
      · split
        · simpa
        · simp only [Option.getD_some]
          intro x
          simp only [applyTrustScoreUpdate, recordInteractionEntry, setProfile]
          split
          · exact computeTrustScore_le _
          · split
            · split
              · exact h reported
              · exact h sender
            · exact h x
  | validation sender successful =>
    simp only [step, recordValidation]
    split
    · simpa
    · split
      · simp only [Option.getD_none]
        exact h
      · next s2 heq =>
        simp only [Option.getD_some]
        intro x
        simp only [applyTrustScoreUpdate, setProfile]
        split
        · exact computeTrustScore_le _
        · rw [awardReward_trust_eq heq x]
          simp only [recordInteractionEntry, setProfile]
          split
          · exact h sender
          · exact h x
  | communityReward sender user amount =>
    simp only [step, awardCommunityReward]
    split
    · simpa
    · split
      · simpa
      · cases haw : awardReward s user amount with
        | none => simpa [haw] using h
        | some s2 =>
          simp only [haw, Option.getD_some]
          exact trustInv_awardReward h haw
  | qoneqt sender user t sig =>
    simp only [step, processQoneqtInteraction]
    split
    · simpa
    · split
      · simpa
      · split
        · simpa
        · simp only [Option.getD_some]
          intro x
          simp only [setProfile]
          split
          · exact applyQoneqtTrustBoost_le _ _ _
          · exact h x
  | emergencyWithdraw toAddr amount =>
    simp only [step, emergencyWithdrawQto]
    split
    · simpa
    · simp only [Option.getD_some]
      exact fun x => h x
  | fund sender amount =>
    simp only [step, fundContractQto]
    split
    · simpa
    · simp only [Option.getD_some]
      exact fun x => h x

theorem trustInv_execOps (ops : List LedgerOp) (s : LedgerState)
    (h : TrustInv s) : TrustInv (execOps s ops) := by
  induction ops generalizing s with
  | nil => exact h
  | cons op ops ih => exact ih _ (trustInv_step s op h)

/-- C5: for every account and every sequence of ledger operations
(registration, interactions, reports, validations, significance rewards,
treasury moves), the invariant 0 ≤ trustScore ≤ 1000 holds in every
reachable state. -/
theorem c5_trust_score_bounded (ops : List LedgerOp) (a : Nat) :
    0 ≤ ((execOps initialState ops).userProfiles a).trustScore ∧
    ((execOps initialState ops).userProfiles a).trustScore ≤ 1000 :=
  ⟨Nat.zero_le _, trustInv_execOps ops initialState trustInv_initial a⟩

/-- C3 (amended): after each of the six legacy update entry points, the
updated account's trust score equals the source's recomputation
`computeTrustScore` of its counters: if positive ≤ negative the score is 0,
else min (100 + (positive − negative)) 1000 — not the spec's symmetric
clamp formula. -/
theorem c3_trust_recomputed (s : LedgerState) (op : LedgerOp)
    (s' : LedgerState) (t : Nat) (htgt : legacyTarget op = some t)
    (hstep : step s op = some s') :
    (s'.userProfiles t).trustScore = computeTrustScore (s'.userProfiles t) := by
  cases op with
  | register sender username => exact absurd htgt (by simp [legacyTarget])
  | communityReward sender user amount => exact absurd htgt (by simp [legacyTarget])
  | qoneqt sender user ty sig => exact absurd htgt (by simp [legacyTarget])
  | emergencyWithdraw toAddr amount => exact absurd htgt (by simp [legacyTarget])
  | fund sender amount => exact absurd htgt (by simp [legacyTarget])
  | like sender =>
    simp only [legacyTarget, Option.some.injEq] at htgt
    subst htgt
    simp only [step, recordLike] at hstep
    split at hstep
    · exact absurd hstep (by simp)
    · cases hstep
      simp only [applyTrustScoreUpdate, recordInteractionEntry, setProfile,
        if_pos]
      exact rfl
  | comment sender =>
    simp only [legacyTarget, Option.some.injEq] at htgt
    subst htgt
    simp only [step, recordComment] at hstep
    split at hstep
    · exact absurd hstep (by simp)
    · cases hstep
      simp only [applyTrustScoreUpdate, recordInteractionEntry, setProfile,
        if_pos]
      exact rfl
  | post sender =>
    simp only [legacyTarget, Option.some.injEq] at htgt
    subst htgt
    simp only [step, recordPost] at hstep
    split at hstep
    · exact absurd hstep (by simp)
    · cases hstep
      simp only [applyTrustScoreUpdate, recordInteractionEntry, setProfile,
        if_pos]
      exact rfl
  | helpful sender helper =>
    simp only [legacyTarget, Option.some.injEq] at htgt
    subst htgt
    simp only [step, recordHelpfulResponse] at hstep
    split at hstep
    · exact absurd hstep (by simp)
    · split at hstep
      · exact absurd hstep (by simp)
      · split at hstep
        · exact absurd hstep (by simp)
        · cases hstep
          simp only [applyTrustScoreUpdate, recordInteractionEntry, setProfile,
            if_pos]
          exact rfl
  | report sender reported =>
    simp only [legacyTarget, Option.some.injEq] at htgt
    subst htgt
    simp only [step, reportUser] at hstep
    split at hstep
    · exact absurd hstep (by simp)
    · split at hstep
      · exact absurd hstep (by simp)
      · split at hstep
        · exact absurd hstep (by simp)
        · cases hstep
          simp only [applyTrustScoreUpdate, recordInteractionEntry, setProfile,
            if_pos]
          exact rfl
  | validation sender successful =>
    simp only [legacyTarget, Option.some.injEq] at htgt
    subst htgt
    simp only [step, recordValidation] at hstep
    split at hstep
    · exact absurd hstep (by simp)
    · split at hstep
      · exact absurd hstep (by simp)
      · cases hstep
        simp only [applyTrustScoreUpdate, setProfile, if_pos]
        exact rfl

/-- C3 witness: the amended recomputation theorem applied to a concrete
`recordLike` transaction. -/
theorem c3_trust_recomputed_witness :
    ((Ledger.step twoUserState (.like 1)).getD initialState |>.userProfiles 1).trustScore
      = computeTrustScore
        ((Ledger.step twoUserState (.like 1)).getD initialState |>.userProfiles 1) :=
  c3_trust_recomputed twoUserState (.like 1)
    ((Ledger.step twoUserState (.like 1)).getD initialState) 1 rfl rfl

/-- C3 counterexample: five likes and one report leave user 1 with counters
likes=5, reportsReceived=1; the code stores trustScore 0 (positive 5 ≤
negative 20 branch) while the spec's clamp formula gives 85. -/
theorem c3_counterexample :
    (c3State.userProfiles 1).likes = 5 ∧
    (c3State.userProfiles 1).reportsReceived = 1 ∧
    (c3State.userProfiles 1).trustScore = 0 ∧
    specClampTrustScore (c3State.userProfiles 1) = 85 ∧
    ((c3State.userProfiles 1).trustScore : Int)
      ≠ specClampTrustScore (c3State.userProfiles 1) := by
  refine ⟨rfl, rfl, rfl, by decide, by decide⟩

/-- C4 counterexample: a freshly registered account has trustScore 100, which
`_getUserTier` places in the Silver tier (multiplier 1000), not Bronze (800);
the POST/significance-900 reward credits 9×10^15, not 7.2×10^15. -/
theorem c4_counterexample :
    (twoUserState.userProfiles 2).trustScore = 100 ∧
    (getUserTier (twoUserState.userProfiles 2).trustScore).tierName = "Silver" ∧
    (getUserTier (twoUserState.userProfiles 2).trustScore).qtoMultiplier = 1000 ∧
    (c4State.userProfiles 2).qtoBalance = 9 * 10 ^ 15 ∧
    (c4State.userProfiles 2).qtoBalance ≠ 72 * 10 ^ 14 := by
  refine ⟨rfl, rfl, rfl, by decide, by decide⟩

/-- C4 (amended): for a freshly registered account (trustScore=100, which is
the Silver tier, multiplier 1000/1000), a POST interaction with
aiSignificance=900 and base reward 10×10^15 yields significanceAmount
9×10^15 and finalAmount 9×10^15; the account's token balance (both the
profile field and the token ledger) increases by exactly that amount. -/
theorem c4_amended :
    qoneqtBaseRewards .POST = 10 * 10 ^ 15 ∧
    qoneqtBaseRewards .POST * 900 / 1000 = 9 * 10 ^ 15 ∧
    (twoUserState.userProfiles 2).trustScore = 100 ∧
    (getUserTier 100).tierName = "Silver" ∧
    (getUserTier 100).qtoMultiplier = 1000 ∧
    (c4State.userProfiles 2).qtoBalance
      = (twoUserState.userProfiles 2).qtoBalance + 9 * 10 ^ 15 ∧
    c4State.qtoBalances 2 = twoUserState.qtoBalances 2 + 9 * 10 ^ 15 := by
  refine ⟨by decide, by decide, rfl, rfl, rfl, by decide, by decide⟩

/-- C1: `processQoneqtInteraction` violates reward conservation.  With the
treasury drained to zero, the operation still succeeds (no
insufficient-treasury check), the treasury balance stays 0 (no debit), and
the rewarded account is credited 9×10^15 out of thin air — the engine
auto-mints. -/
theorem c1_reward_not_conserved :
    drainedState.qtoBalances contractAddr = 0 ∧
    (Ledger.step drainedState (.qoneqt 1 2 .POST 900)).isSome = true ∧
    ((Ledger.step drainedState (.qoneqt 1 2 .POST 900)).getD initialState).qtoBalances
      contractAddr = 0 ∧
    ((Ledger.step drainedState (.qoneqt 1 2 .POST 900)).getD initialState).qtoBalances 2
      = drainedState.qtoBalances 2 + 9 * 10 ^ 15 := by
  refine ⟨by decide, rfl, by decide, by decide⟩

theorem highRisk_cases (m : String) (h : isHighRiskMethod m = true) :
    m = "eth_sendTransaction" ∨ m = "eth_sendRawTransaction" ∨
    m = "personal_sendTransaction" ∨ m = "personal_unlockAccount" ∨
    m = "miner_start" ∨ m = "miner_stop" ∨ m = "admin_addPeer" ∨
    m = "debug_traceTransaction" := by
  simp [isHighRiskMethod, highRiskMethods] at h
  tauto

theorem highRisk_not_readOnly (m : String) (h : isHighRiskMethod m = true) :
    isReadOnlyMethod m = false := by
  rcases highRisk_cases m h with rfl | rfl | rfl | rfl | rfl | rfl | rfl | rfl
    <;> decide

/-- C7: when the external classifier fails, `fallbackValidation` decides
deterministically from the method name alone: read-only allow-listed methods
give LOW/proceed, methods on the high-risk allow-list give HIGH/reject, and
every other method gives MEDIUM/proceed. -/
theorem c7_fallback_static :
    (∀ r r' : RPCRequest, r.method = r'.method →
      fallbackValidation r = fallbackValidation r') ∧
    (∀ r : RPCRequest, isReadOnlyMethod r.method = true →
      fallbackValidation r =
        { isValid := true, riskLevel := .LOW,
          reasoning := "Read-only method - fallback validation",
          shouldProceed := true }) ∧
    (∀ r : RPCRequest, isHighRiskMethod r.method = true →
      fallbackValidation r =
        { isValid := false, riskLevel := .HIGH,
          reasoning := "High-risk method blocked by fallback validation",
          shouldProceed := false }) ∧
    (∀ r : RPCRequest, isReadOnlyMethod r.method = false →
      isHighRiskMethod r.method = false →
      fallbackValidation r =
        { isValid := true, riskLevel := .MEDIUM,
          reasoning := "Standard method - fallback validation",
          shouldProceed := true }) := by
  refine ⟨?_, ?_, ?_, ?_⟩
  · intro r r' hm
    simp only [fallbackValidation, hm]
  · intro r h
    simp [fallbackValidation, h]
  · intro r h
    simp [fallbackValidation, h, highRisk_not_readOnly r.method h]
  · intro r h1 h2
    simp [fallbackValidation, h1, h2]

/-- C7 witness: the fallback policy evaluated on a read-only, a high-risk and
an ordinary method. -/
theorem c7_fallback_static_witness :
    fallbackValidation reqBlockNumber =
      { isValid := true, riskLevel := .LOW,
        reasoning := "Read-only method - fallback validation",
        shouldProceed := true } ∧
    fallbackValidation reqSendTx =
      { isValid := false, riskLevel := .HIGH,
        reasoning := "High-risk method blocked by fallback validation",
        shouldProceed := false } ∧
    fallbackValidation
      { jsonrpc := "2.0", method := "eth_newFilter", params := [],
        idField := some (.num 3) } =
      { isValid := true, riskLevel := .MEDIUM,
        reasoning := "Standard method - fallback validation",
        shouldProceed := true } :=
  ⟨c7_fallback_static.2.1 reqBlockNumber (by decide),
   c7_fallback_static.2.2.1 reqSendTx (by decide),
   c7_fallback_static.2.2.2 _ (by decide) (by decide)⟩

theorem parseStep_proceed (acc : ParseAcc) (l : String)
    (hacc : acc.shouldProceed = false) (hl : isProceedTrueLine l = false) :
    (parseStep acc l).shouldProceed = false := by
  simp only [isProceedTrueLine, Bool.and_eq_false_iff] at hl
  simp only [parseStep]
  split_ifs with h1 h2 h3 h4 h5 h6 h7
  · exact hacc
  · exact hacc
  · exact hacc
  · exact hacc
  · rcases hl with hl | hl
    · exact absurd h5 (by simp [hl])
    · simpa using hl
  · exact hacc
  · cases parseJsInt (fieldValue l) <;> simpa using hacc
  · exact hacc

theorem parseStep_risk (acc : ParseAcc) (l : String)
    (hl : isValidRiskLine l = false) :
    (parseStep acc l).riskLevel = acc.riskLevel := by
  simp only [isValidRiskLine, Bool.and_eq_false_iff, Bool.or_eq_false_iff,
    beq_eq_false_iff_ne, ne_eq] at hl
  simp only [parseStep]
  split_ifs with h1 h2 h3 h4 h5 h6 h7
  · rcases hl with hl | hl
    · exact absurd h1 (by simp [hl])
    · exact absurd h2 (by tauto)
  · rcases hl with hl | hl
    · exact absurd h1 (by simp [hl])
    · exact absurd h3 (by tauto)
  · rcases hl with hl | hl
    · exact absurd h1 (by simp [hl])
    · exact absurd h4 (by tauto)
  · rfl
  · rfl
  · rfl
  · cases parseJsInt (fieldValue l) <;> rfl
  · rfl

theorem parse_foldl_proceed (lines : List String) (acc : ParseAcc)
    (hacc : acc.shouldProceed = false)
    (h : ∀ l ∈ lines, isProceedTrueLine l = false) :
    (List.foldl parseStep acc lines).shouldProceed = false := by
  induction lines generalizing acc with
  | nil => simpa using hacc
  | cons l ls ih =>
    simp only [List.foldl_cons]
    exact ih (parseStep acc l)
      (parseStep_proceed acc l hacc (h l (List.mem_cons_self l ls)))
      (fun x hx => h x (List.mem_cons_of_mem l hx))

theorem parse_foldl_risk (lines : List String) (acc : ParseAcc)
    (h : ∀ l ∈ lines, isValidRiskLine l = false) :
    (List.foldl parseStep acc lines).riskLevel = acc.riskLevel := by
  induction lines generalizing acc with
  | nil => rfl
  | cons l ls ih =>
    simp only [List.foldl_cons]
    rw [ih (parseStep acc l) (fun x hx => h x (List.mem_cons_of_mem l hx))]
    exact parseStep_risk acc l (h l (List.mem_cons_self l ls))

/-- C10 (amended): a classifier reply in which no line sets
`SHOULD_PROCEED` to true (case-insensitively, after trimming) parses to
`shouldProceed = false`; absent a valid `RISK_LEVEL` line the level defaults
to MEDIUM; by contrast the transport-error fallback lets ordinary methods
proceed. -/
theorem c10_default_reject :
    (∀ aiResponse : String,
      (∀ l ∈ jsSplit '\n' aiResponse, isProceedTrueLine l = false) →
      (parseAIResponse aiResponse).shouldProceed = false ∧
      (parseAIResponse aiResponse).isValid = false) ∧
    (∀ aiResponse : String,
      (∀ l ∈ jsSplit '\n' aiResponse, isValidRiskLine l = false) →
      (parseAIResponse aiResponse).riskLevel = .MEDIUM) ∧
    (∀ r : RPCRequest, isReadOnlyMethod r.method = false →
      isHighRiskMethod r.method = false →
      (fallbackValidation r).shouldProceed = true ∧
      (fallbackValidation r).riskLevel = .MEDIUM) := by
  refine ⟨?_, ?_, ?_⟩
  · intro aiResponse h
    have hall : ∀ l ∈ (jsSplit '\n' aiResponse).filter
        (fun l => jsTrim l ≠ ""), isProceedTrueLine l = false :=
      fun l hl => h l (List.mem_filter.mp hl).1
    have hp := parse_foldl_proceed
      ((jsSplit '\n' aiResponse).filter (fun l => jsTrim l ≠ ""))
      { riskLevel := .MEDIUM, shouldProceed := false,
        reasoning := "AI analysis completed", communityTrustScore := none }
      rfl hall
    exact ⟨hp, hp⟩
  · intro aiResponse h
    have hall : ∀ l ∈ (jsSplit '\n' aiResponse).filter
        (fun l => jsTrim l ≠ ""), isValidRiskLine l = false :=
      fun l hl => h l (List.mem_filter.mp hl).1
    exact parse_foldl_risk _ _ hall
  · intro r h1 h2
    constructor <;> simp [fallbackValidation, h1, h2]

/-- C10 witness: an unparseable free-text reply is rejected with MEDIUM risk,
while the fallback lets an ordinary method proceed. -/
theorem c10_default_reject_witness :
    (parseAIResponse "This transaction looks fine to me.").shouldProceed
      = false ∧
    (parseAIResponse "This transaction looks fine to me.").riskLevel
      = .MEDIUM ∧
    (fallbackValidation
      { jsonrpc := "2.0", method := "eth_newFilter", params := [],
        idField := some (.num 3) }).shouldProceed = true :=
  ⟨(c10_default_reject.1 "This transaction looks fine to me." (by decide)).1,
   c10_default_reject.2.1 "This transaction looks fine to me." (by decide),
   (c10_default_reject.2.2 _ (by decide) (by decide)).1⟩

/-- C10 counterexample: the claim's literal reading — value not equal to the
string true forces rejection — fails: the parser lowercases, so a
`SHOULD_PROCEED: TRUE` line (value `TRUE`, not `true`) yields
`shouldProceed = true`. -/
theorem c10_counterexample :
    jsStartsWith "SHOULD_PROCEED: TRUE" "SHOULD_PROCEED:" = true ∧
    fieldValue "SHOULD_PROCEED: TRUE" ≠ "true" ∧
    (parseAIResponse "SHOULD_PROCEED: TRUE").shouldProceed = true := by
  refine ⟨by decide, by decide, by decide⟩

theorem combineWithCommunity_shouldProceed (v : AIValidationResult)
    (cv : CommunityOutcome) (hv : v.shouldProceed = false) :
    (combineWithCommunity v cv).shouldProceed = false := by
  simp only [combineWithCommunity, hv]
  split <;> simp [hv]

theorem combineWithCommunity_riskLevel (v : AIValidationResult)
    (cv : CommunityOutcome) :
    (combineWithCommunity v cv).riskLevel = v.riskLevel := by
  simp only [combineWithCommunity]
  split <;> rfl

theorem mapGet_mapSet (l : List (Nat × InterceptedCall)) (k : Nat)
    (v : InterceptedCall) : mapGet (mapSet l k v) k = some v := by
  induction l with
  | nil => simp [mapSet, mapGet]
  | cons hd tl ih =>
    simp only [mapSet]
    split
    · simp [mapGet]
    · next hne =>
      simp only [mapGet, if_neg hne]
      exact ih

theorem combinedValidation_proceed (cfg : Config) (C : Collaborators)
    (request : RPCRequest) (validation : AIValidationResult)
    (hv : validation.shouldProceed = false) :
    (combinedValidation cfg C request validation).1.shouldProceed = false := by
  unfold combinedValidation
  split
  · split
    · split
      · exact combineWithCommunity_shouldProceed _ _ hv
      · exact hv
    · exact hv
  · exact hv

theorem combinedValidation_risk (cfg : Config) (C : Collaborators)
    (request : RPCRequest) (validation : AIValidationResult) :
    (combinedValidation cfg C request validation).1.riskLevel
      = validation.riskLevel := by
  unfold combinedValidation
  split
  · split
    · split
      · exact combineWithCommunity_riskLevel _ _
      · rfl
    · rfl
  · rfl

/-- C6: a classifier verdict with `shouldProceed = false` and risk level HIGH
makes the pipeline reject the call — error code −32001, risk HIGH in the
error data, stored status `rejected` — for every configuration, every
community/reputation verdict and every store. -/
theorem c6_high_reject_dominates (cfg : Config) (C : Collaborators)
    (st : CallStore) (request : RPCRequest)
    (henabled : cfg.aiValidationEnabled = true)
    (hproceed : (C.validate request (extractUserAddress request)).shouldProceed
      = false)
    (hrisk : (C.validate request (extractUserAddress request)).riskLevel
      = .HIGH) :
    respErrorCode (processRequest cfg C st request).1 = some (-32001) ∧
    respRiskLevel (processRequest cfg C st request).1 = some .HIGH ∧
    (getInterceptedCall (processRequest cfg C st request).2 st.nextId).map
      (fun c => c.status) = some CallStatus.rejected := by
  have h1 := combinedValidation_proceed cfg C request
    (C.validate request (extractUserAddress request)) hproceed
  have h2 := combinedValidation_risk cfg C request
    (C.validate request (extractUserAddress request))
  simp only [processRequest, henabled, if_true]
  simp [h1, h2, hrisk, respErrorCode, respRiskLevel, mkErrorResponse,
    getInterceptedCall, mapGet_mapSet]

/-- C6 witness: a HIGH/reject classifier verdict rejects the call even though
the community validator fully vouches for the account. -/
theorem c6_high_reject_dominates_witness :
    respErrorCode
      (processRequest defaultConfig highRejectCollaborators emptyStore
        reqSendTx).1 = some (-32001) ∧
    (getInterceptedCall
      (processRequest defaultConfig highRejectCollaborators emptyStore
        reqSendTx).2 0).map (fun c => c.status) = some CallStatus.rejected :=
  ⟨(c6_high_reject_dominates defaultConfig highRejectCollaborators emptyStore
      reqSendTx rfl rfl rfl).1,
   (c6_high_reject_dominates defaultConfig highRejectCollaborators emptyStore
      reqSendTx rfl rfl rfl).2.2⟩

/-- C2: a call that was approved but held for manual review is stored with
status `validated` (not `pending`), while `approveCall` acts only on status
`pending` — so invoking `approve(callId)` on the held call is a no-op that
returns `null` and leaves the store unchanged, and the call advertised by the
`-32002` response's approval handle can never be finalized through it. -/
theorem c2_held_call_cannot_be_approved :
    respErrorCode heldResponse = some (-32002) ∧
    (heldResponse.error.bind (fun e => e.data)).bind
      (fun d => d.approvalEndpoint) = some 0 ∧
    (getInterceptedCall heldStore 0).map (fun c => c.status)
      = some CallStatus.validated ∧
    approveCall echoCollaborators heldStore 0 = (none, heldStore) := by
  refine ⟨rfl, rfl, rfl, by decide⟩

theorem mapGet_isSome_of_mem (l : List (Nat × InterceptedCall)) (k : Nat)
    (c : InterceptedCall) (h : (k, c) ∈ l) : (mapGet l k).isSome = true := by
  induction l with
  | nil => simp at h
  | cons hd tl ih =>
    simp only [mapGet]
    split
    · rfl
    · next hne =>
      rcases List.mem_cons.mp h with heq | hmem
      · exact absurd (congrArg Prod.fst heq).symm hne
      · exact ih hmem

/-- C8 (amended): only the history listing is bounded — `getCallHistory`
returns at most 100 entries — while the underlying store is unbounded: no
entry is ever evicted, and a lookup by the id of any recorded call, however
old, still returns it. -/
theorem c8_history_bounded_store_unbounded (st : CallStore) :
    (getCallHistory st).length ≤ 100 ∧
    ∀ callId call, (callId, call) ∈ st.entries →
      (getInterceptedCall st callId).isSome = true := by
  constructor
  · simp only [getCallHistory]
    exact List.length_take_le 100 _
  · intro callId call h
    exact mapGet_isSome_of_mem st.entries callId call h

/-- C8 witness: the amended bound applied to a concrete one-call store. -/
theorem c8_history_bounded_store_unbounded_witness :
    (getCallHistory oneCallStore).length ≤ 100 ∧
    (getInterceptedCall oneCallStore 0).isSome = true :=
  ⟨(c8_history_bounded_store_unbounded oneCallStore).1,
   (c8_history_bounded_store_unbounded oneCallStore).2 0
     (oneCallStore.entries.headD dummyEntry).2 (by decide)⟩

set_option maxRecDepth 8000 in
/-- C8 counterexample: after 101 completed calls the store holds 101
entries — more than the claimed most-recent-100 bound — and a lookup by the
oldest call's id still succeeds instead of returning not-found. -/
theorem c8_counterexample :
    store101.entries.length = 101 ∧
    (getInterceptedCall store101 0).isSome = true := by
  refine ⟨by decide, by decide⟩

theorem forwardPhase_id (C : Collaborators) (st : CallStore) (callId : Nat)
    (call : InterceptedCall) (request : RPCRequest)
    (hfwd : ∀ req resp, C.forward req = .ok resp → resp.id = req.idField) :
    (forwardPhase C st callId call request).1.id = request.idField := by
  simp only [forwardPhase]
  cases hf : C.forward request with
  | ok resp => exact hfwd request resp hf
  | error msg => rfl

theorem ite_fst_id {c : Prop} [Decidable c] {v : Option RpcId}
    (a b : RPCResponse × CallStore) (ha : a.1.id = v) (hb : b.1.id = v) :
    (if c then a else b).1.id = v := by
  split
  · exact ha
  · exact hb

theorem processRequest_id (cfg : Config) (C : Collaborators) (st : CallStore)
    (request : RPCRequest)
    (hfwd : ∀ req resp, C.forward req = .ok resp → resp.id = req.idField) :
    (processRequest cfg C st request).1.id = request.idField := by
  simp only [processRequest]
  split
  · exact ite_fst_id _ _ rfl
      (ite_fst_id _ _ rfl (forwardPhase_id C _ _ _ request hfwd))
  · exact forwardPhase_id C _ _ _ request hfwd

theorem processAll_ids (cfg : Config) (C : Collaborators)
    (hfwd : ∀ req resp, C.forward req = .ok resp → resp.id = req.idField) :
    ∀ (rs : List RPCRequest) (st : CallStore),
      (processAll cfg C st rs).1.map (fun x => x.id)
        = rs.map (fun r => r.idField) := by
  intro rs
  induction rs with
  | nil => intro st; rfl
  | cons r rest ih =>
    intro st
    simp only [processAll, List.map_cons]
    exact congrArg₂ List.cons (processRequest_id cfg C st r hfwd) (ih _)

/-- C9 (amended): when every request in the body is well-formed (truthy
`jsonrpc` and `method`, an `id` property present), the response mirrors the
request shape — a batch of n requests yields an array of exactly n
responses, in order, and each response carries its request's id, provided
the downstream endpoint echoes request ids (synthesized responses always
reuse the request id).  A body containing a malformed request is instead
answered with a single -32600 error object (see the counterexample). -/
theorem c9_shape_mirrored (cfg : Config) (C : Collaborators)
    (hfwd : ∀ req resp, C.forward req = .ok resp → resp.id = req.idField) :
    (∀ (st : CallStore) (rs : List RPCRequest),
      (∀ r ∈ rs, jsWellFormed r = true) →
      (interceptRPCCall cfg C st (.batch rs)).1
        = .okJson (.arr (processAll cfg C st rs).1) ∧
      (processAll cfg C st rs).1.length = rs.length ∧
      (processAll cfg C st rs).1.map (fun x => x.id)
        = rs.map (fun r => r.idField)) ∧
    (∀ (st : CallStore) (r : RPCRequest), jsWellFormed r = true →
      (interceptRPCCall cfg C st (.single r)).1
        = .okJson (.obj (processRequest cfg C st r).1) ∧
      (processRequest cfg C st r).1.id = r.idField) := by
  constructor
  · intro st rs h
    have hfind : rs.find? (fun r => !jsWellFormed r) = none := by
      rw [List.find?_eq_none]
      intro x hx
      simp [h x hx]
    refine ⟨?_, ?_, processAll_ids cfg C hfwd rs st⟩
    · simp [interceptRPCCall, hfind]
    · have := congrArg List.length (processAll_ids cfg C hfwd rs st)
      simpa using this
  · intro st r h
    have hfind : [r].find? (fun x => !jsWellFormed x) = none := by
      rw [List.find?_eq_none]
      intro x hx
      simp only [List.mem_singleton] at hx
      subst hx
      simp [h]
    constructor
    · simp [interceptRPCCall, hfind, processAll]
    · exact processRequest_id cfg C st r hfwd

/-- C9 witness: a batch of two well-formed requests yields an array of
exactly two responses, in order, carrying ids 1 and 5. -/
theorem c9_shape_mirrored_witness :
    (interceptRPCCall defaultConfig echoCollaborators emptyStore
      (.batch [reqBlockNumber, reqGasPrice])).1
      = .okJson (.arr (processAll defaultConfig echoCollaborators emptyStore
          [reqBlockNumber, reqGasPrice]).1) ∧
    (processAll defaultConfig echoCollaborators emptyStore
      [reqBlockNumber, reqGasPrice]).1.length = 2 ∧
    (processAll defaultConfig echoCollaborators emptyStore
      [reqBlockNumber, reqGasPrice]).1.map (fun x => x.id)
      = [some (.num 1), some (.num 5)] := by
  have h := (c9_shape_mirrored defaultConfig echoCollaborators
    (fun req resp hf => by cases hf; rfl)).1 emptyStore
    [reqBlockNumber, reqGasPrice] (by decide)
  exact ⟨h.1, h.2.1, h.2.2.trans (by decide)⟩

/-- C9 counterexample: a batch of two requests one of which is malformed is
answered with a single -32600 error object, not with an array of two
responses — the response shape does not mirror the request shape. -/
theorem c9_counterexample :
    (interceptRPCCall defaultConfig echoCollaborators emptyStore
      (.batch [reqBlockNumber, reqBad])).1
      = .badRequest (invalidRequestResponse reqBad) := by
  decide
